import Mathlib

/-!
# Verification of the acloud artifact pipeline against its specification

Shallow embedding of the acloud sources (create/create_common.py,
create/remote_image_local_instance.py, internal/lib/cvd_compute_client.py,
plus the ssh and delete layers known only through their tests and the spec)
and proofs of the specification's claims about them.

Conventions of the embedding:
* Python strings are `String`; `str.split(sep)` for the single-character
  separators the code uses is `pySplit`, `str.strip()` is `pyStrip`,
  `str.lower()` is `pyLower` — all defined below by structural recursion on
  the character list so that concrete runs compute inside proofs.
* Python dicts with string keys are ordered association lists
  (`List (String × String)`) where assignment replaces an existing binding
  in place or appends a new one.
* Raised exceptions are the `Except.error` branch of an explicit error type.
* `os.path.join a b` (with `a` a plain directory path and `b` relative, the
  only way the code calls it) is `a ++ "/" ++ b`.
* External collaborators (filesystem, statvfs, build client, compute
  backend, external tools) are function parameters supplying their observed
  behaviour; the code's own logic is translated faithfully.
-/

deriving instance DecidableEq for Except

namespace Acloud

/-! ## Python string primitives -/

/-- `str.split(sep)` for a single-character separator, on character lists:
splitting the empty string yields `[[]]`, and each occurrence of `sep`
starts a new chunk. -/
def pySplitList (sep : Char) : List Char → List (List Char)
  | [] => [[]]
  | c :: rest =>
      match pySplitList sep rest with
      | [] => [[]]
      | hd :: tl => if c = sep then [] :: hd :: tl else (c :: hd) :: tl

/-- `str.split(sep)` for a single-character separator. -/
def pySplit (sep : Char) (s : String) : List String :=
  (pySplitList sep s.data).map String.mk

/-- `str.strip()`: drop whitespace from both ends. -/
def pyStrip (s : String) : String :=
  String.mk
    (((s.data.dropWhile Char.isWhitespace).reverse.dropWhile
        Char.isWhitespace).reverse)

/-- `str.lower()`. -/
def pyLower (s : String) : String :=
  String.mk (s.data.map Char.toLower)

/-- Python string truthiness: a string is falsy exactly when empty. -/
def pyEmpty (s : String) : Bool :=
  s.data.isEmpty

theorem pySplitList_ne_nil (sep : Char) (l : List Char) :
    pySplitList sep l ≠ [] := by
  cases l with
  | nil => simp [pySplitList]
  | cons c rest =>
      simp only [pySplitList]
      rcases h : pySplitList sep rest with _ | ⟨hd, tl⟩
      · simp [h]
      · simp only [h]
        split <;> simp

/-! ## create/create_common.py : ParseHWPropertyArgs -/

/-- Errors that `ParseHWPropertyArgs` can raise: the documented
`errors.MalformedDictStringError` (with its message), or Python's plain
`ValueError` escaping from tuple unpacking `key, value = item.split(sep)`. -/
inductive ParseError where
  | malformedDictString (msg : String)
  | valueError
  deriving DecidableEq, Repr

/-- Python dict assignment `d[k] = v` on an ordered association list:
replace the binding of `k` in place when present, else append. -/
def pyDictInsert (d : List (String × String)) (k v : String) :
    List (String × String) :=
  match d with
  | [] => [(k, v)]
  | (k', v') :: rest =>
      if k' = k then (k, v) :: rest else (k', v') :: pyDictInsert rest k v

/-- The body of the `for item in dict_str.split(item_separator)` loop of
`ParseHWPropertyArgs` (create_common.py lines 52-60), processing the item
list left to right while accumulating the dict.

For each item: `key_value_separator not in item` is equivalent to the split
having exactly one part; `key, value = item.split(sep)` succeeds exactly
when the split has two parts and otherwise raises `ValueError`; then the
`not value or not key` check, then `hw_dict[key.strip()] = value.strip()`. -/
def parseHWItems (kvSep : Char) :
    List String → List (String × String) → Except ParseError (List (String × String))
  | [], acc => .ok acc
  | item :: rest, acc =>
      let parts := pySplit kvSep item
      if parts.length = 1 then
        .error (.malformedDictString
          ("Expecting ':' in '" ++ item ++ "' to make a key-val pair"))
      else
        match parts with
        | [key, value] =>
            if pyEmpty value ∨ pyEmpty key then
              .error (.malformedDictString
                ("Missing key or value in " ++ item ++ ", expecting form of 'a:b'"))
            else
              parseHWItems kvSep rest (pyDictInsert acc (pyStrip key) (pyStrip value))
        | _ => .error .valueError

/-- `ParseHWPropertyArgs(dict_str, item_separator=",", key_value_separator=":")`
(create_common.py lines 30-62), with the separators the code uses by
default. An empty `dict_str` is falsy and returns the empty dict without
splitting. -/
def ParseHWPropertyArgs (dictStr : String) (itemSep : Char := ',')
    (kvSep : Char := ':') : Except ParseError (List (String × String)) :=
  if pyEmpty dictStr then .ok []
  else parseHWItems kvSep (pySplit itemSep dictStr) []

/-- An item the code accepts: exactly one separator occurrence with
non-empty key and value on each side. -/
def wellFormedItem (kvSep : Char) (item : String) : Prop :=
  ∃ key value : String, pySplit kvSep item = [key, value] ∧
    ¬pyEmpty value ∧ ¬pyEmpty key

instance (kvSep : Char) (item : String) : Decidable (wellFormedItem kvSep item) :=
  match h : pySplit kvSep item with
  | [] => .isFalse (by rintro ⟨k', v', hkv, -, -⟩; rw [h] at hkv; simp at hkv)
  | [_] => .isFalse (by rintro ⟨k', v', hkv, -, -⟩; rw [h] at hkv; simp at hkv)
  | [k, v] =>
      if hw : ¬pyEmpty v ∧ ¬pyEmpty k then
        .isTrue ⟨k, v, h, hw.1, hw.2⟩
      else
        .isFalse (by
          rintro ⟨k', v', hkv, h1, h2⟩
          rw [h] at hkv
          obtain ⟨rfl, rfl⟩ : k = k' ∧ v = v' := by simpa using hkv
          exact hw ⟨h1, h2⟩)
  | _ :: _ :: _ :: _ =>
      .isFalse (by rintro ⟨k', v', hkv, -, -⟩; rw [h] at hkv; simp at hkv)

/-- An item that triggers `MalformedDictStringError`: either no separator
occurrence at all, or exactly one but with an empty key or value. -/
def malformedItem (kvSep : Char) (item : String) : Prop :=
  (pySplit kvSep item).length = 1 ∨
    ∃ key value : String, pySplit kvSep item = [key, value] ∧
      (pyEmpty value ∨ pyEmpty key)

/-- Discriminator for the `MalformedDictStringError` branch of a parse
result. -/
def isMalformedError (r : Except ParseError (List (String × String))) : Prop :=
  ∃ msg, r = .error (.malformedDictString msg)

theorem parseHWItems_malformed_of_first (kvSep : Char) (pre : List String)
    (item : String) (post : List String)
    (hpre : ∀ i ∈ pre, wellFormedItem kvSep i)
    (hbad : malformedItem kvSep item) :
    ∀ acc, ∃ msg,
      parseHWItems kvSep (pre ++ item :: post) acc = .error (.malformedDictString msg) := by
  induction pre with
  | nil =>
      intro acc
      rcases hbad with h1 | ⟨key, value, hkv, hev⟩
      · exact ⟨"Expecting ':' in '" ++ item ++ "' to make a key-val pair",
          by simp [parseHWItems, h1]⟩
      · refine ⟨"Missing key or value in " ++ item ++ ", expecting form of 'a:b'", ?_⟩
        have hlen : (pySplit kvSep item).length = 2 := by rw [hkv]; rfl
        simp only [List.nil_append, parseHWItems, hlen]
        rw [hkv]
        simp [hev]
  | cons hd tl ih =>
      intro acc
      obtain ⟨key, value, hkv, hv, hk⟩ := hpre hd (by simp)
      have hlen : (pySplit kvSep hd).length = 2 := by rw [hkv]; rfl
      have := ih (fun i hi => hpre i (by simp [hi])) (pyDictInsert acc (pyStrip key) (pyStrip value))
      simp only [List.cons_append, parseHWItems, hlen]
      rw [hkv]
      simpa [hv, hk] using this

theorem parseHWItems_valueError_of_first (kvSep : Char) (pre : List String)
    (item : String) (post : List String)
    (hpre : ∀ i ∈ pre, wellFormedItem kvSep i)
    (hbad : 3 ≤ (pySplit kvSep item).length) :
    ∀ acc, parseHWItems kvSep (pre ++ item :: post) acc = .error .valueError := by
  induction pre with
  | nil =>
      intro acc
      rcases hsp : pySplit kvSep item with _ | ⟨k, _ | ⟨v, _ | ⟨w, tl⟩⟩⟩
      · rw [hsp] at hbad; simp at hbad
      · rw [hsp] at hbad; simp at hbad
      · rw [hsp] at hbad; simp at hbad
      · simp [parseHWItems, hsp]
  | cons hd tl ih =>
      intro acc
      obtain ⟨key, value, hkv, hv, hk⟩ := hpre hd (by simp)
      have hlen : (pySplit kvSep hd).length = 2 := by rw [hkv]; rfl
      have := ih (fun i hi => hpre i (by simp [hi])) (pyDictInsert acc (pyStrip key) (pyStrip value))
      simp only [List.cons_append, parseHWItems, hlen]
      rw [hkv]
      simpa [hv, hk] using this

/-- When `parseHWItems` raises `MalformedDictStringError`, the item list
decomposes as well-formed items followed by a malformed one. -/
theorem parseHWItems_malformed_inv (kvSep : Char) :
    ∀ (items : List String) (acc : List (String × String)) (msg : String),
      parseHWItems kvSep items acc = .error (.malformedDictString msg) →
      ∃ pre item post, items = pre ++ item :: post ∧
        (∀ i ∈ pre, wellFormedItem kvSep i) ∧ malformedItem kvSep item := by
  intro items
  induction items with
  | nil => intro acc msg h; simp [parseHWItems] at h
  | cons item rest ih =>
      intro acc msg h
      by_cases h1 : (pySplit kvSep item).length = 1
      · exact ⟨[], item, rest, by simp, by simp, .inl h1⟩
      · rcases hsp : pySplit kvSep item with _ | ⟨k, _ | ⟨v, _ | _⟩⟩
        · simp [parseHWItems, hsp] at h
        · simp [hsp] at h1
        · by_cases hev : pyEmpty v ∨ pyEmpty k
          · exact ⟨[], item, rest, by simp, by simp,
              .inr ⟨k, v, hsp, hev⟩⟩
          · simp only [parseHWItems, hsp] at h
            rw [if_neg (by simp)] at h
            rw [if_neg hev] at h
            obtain ⟨pre, item', post, hdec, hpre, hbad⟩ := ih _ _ h
            push_neg at hev
            refine ⟨item :: pre, item', post, by simp [hdec], ?_, hbad⟩
            intro i hi
            rcases List.mem_cons.mp hi with rfl | hi'
            · exact ⟨k, v, hsp, hev.1, hev.2⟩
            · exact hpre i hi'
        · simp only [parseHWItems, hsp] at h
          rw [if_neg (by simp)] at h
          simp at h

/-- C2 counterexample: on input `"a:b:c,x"` the item `"x"` lacks the `':'`
separator, yet the parse raises plain `ValueError` (from unpacking the
three-way split of the earlier item `"a:b:c"`), not
`MalformedDictStringError` — refuting the claim's universally quantified
error clause. -/
theorem C2_counterexample :
    "x" ∈ pySplit ',' "a:b:c,x" ∧ (pySplit ':' "x").length = 1 ∧
      ParseHWPropertyArgs "a:b:c,x" = .error .valueError ∧
      ¬ isMalformedError (ParseHWPropertyArgs "a:b:c,x") := by
  refine ⟨by decide, by decide, by decide, ?_⟩
  rintro ⟨msg, hmsg⟩
  have : ParseHWPropertyArgs "a:b:c,x" = .error .valueError := by decide
  rw [this] at hmsg
  exact ParseError.noConfusion (Except.error.inj hmsg)

/-- C2 (amended): `ParseHWPropertyArgs "cpu:2,dpi:240"` yields the mapping
`{cpu ↦ "2", dpi ↦ "240"}`; and for every non-empty input, an item lacking
the `':'` separator or having an empty key or value raises
`MalformedDictStringError`, provided every item before it is a well-formed
`key:value` pair (an earlier item with two or more separators raises
`ValueError` first instead). -/
theorem C2_parseHWPropertyArgs :
    ParseHWPropertyArgs "cpu:2,dpi:240" = .ok [("cpu", "2"), ("dpi", "240")] ∧
    ∀ (s : String) (pre : List String) (item : String) (post : List String),
      ¬pyEmpty s →
      pySplit ',' s = pre ++ item :: post →
      (∀ i ∈ pre, wellFormedItem ':' i) →
      malformedItem ':' item →
      isMalformedError (ParseHWPropertyArgs s) := by
  refine ⟨by decide, ?_⟩
  intro s pre item post hs hsplit hpre hbad
  obtain ⟨msg, hmsg⟩ := parseHWItems_malformed_of_first ':' pre item post hpre hbad []
  refine ⟨msg, ?_⟩
  rw [ParseHWPropertyArgs, if_neg (by simpa using hs), hsplit, hmsg]

/-- Witness for C2: applied to the concrete input `"a:b,x"`, whose second
item lacks the separator after a well-formed first item. -/
theorem C2_witness : isMalformedError (ParseHWPropertyArgs "a:b,x") :=
  C2_parseHWPropertyArgs.2 "a:b,x" ["a:b"] "x" [] (by decide) (by decide)
    (by decide) (Or.inl (by decide))

/-- C10: an item with two or more `':'` separators makes the two-variable
unpacking raise plain `ValueError` (shown both on the concrete input
`"a:b:c"` and for every input whose first offending item has ≥ 2
separators); and `MalformedDictStringError` arises only when the first
offending item has no separator or an empty key or value. -/
theorem C10_valueError_unpacking :
    ParseHWPropertyArgs "a:b:c" = .error .valueError ∧
    (∀ (s : String) (pre : List String) (item : String) (post : List String),
      ¬pyEmpty s →
      pySplit ',' s = pre ++ item :: post →
      (∀ i ∈ pre, wellFormedItem ':' i) →
      3 ≤ (pySplit ':' item).length →
      ParseHWPropertyArgs s = .error .valueError) ∧
    (∀ (s msg : String),
      ParseHWPropertyArgs s = .error (.malformedDictString msg) →
      ∃ pre item post, pySplit ',' s = pre ++ item :: post ∧
        (∀ i ∈ pre, wellFormedItem ':' i) ∧ malformedItem ':' item) := by
  refine ⟨by decide, ?_, ?_⟩
  · intro s pre item post hs hsplit hpre hbad
    rw [ParseHWPropertyArgs, if_neg (by simpa using hs), hsplit]
    exact parseHWItems_valueError_of_first ':' pre item post hpre hbad []
  · intro s msg h
    rw [ParseHWPropertyArgs] at h
    by_cases hs : pyEmpty s
    · rw [if_pos hs] at h; exact absurd h (by simp)
    · rw [if_neg hs] at h
      exact parseHWItems_malformed_inv ':' _ _ _ h

/-- Witness for C10: the input `"a:b,u:v:w"` has a well-formed first item
and a second item with two separators, and parsing raises `ValueError`. -/
theorem C10_witness : ParseHWPropertyArgs "a:b,u:v:w" = .error .valueError :=
  C10_valueError_unpacking.2.1 "a:b,u:v:w" ["a:b"] "u:v:w" [] (by decide)
    (by decide) (by decide) (by decide)

/-! ## create/remote_image_local_instance.py : _ConfirmDownloadRemoteImageDir -/

/-- Outcome of the interactive download-directory loop: a returned path, a
`sys.exit()` termination, or exhaustion of the modelled user-input queue
while a prompt is pending. -/
inductive ConfirmResult where
  | returned (path : String)
  | exited
  | blocked
  deriving DecidableEq, Repr

/-- `stat.f_bavail * stat.f_bsize / (1024)**3` (Python 2 integer floor
division) for the directory, where `statvfs` reports
`(f_bavail, f_bsize)`. -/
def availSpaceGiB (statvfs : String → Nat × Nat) (dir : String) : Nat :=
  (statvfs dir).1 * (statvfs dir).2 / 1024 ^ 3

/-- `_ConfirmDownloadRemoteImageDir(download_dir)`
(remote_image_local_instance.py lines 208-245). The `while True` loop is
driven by the queue `inputs` of answers the user gives to
`utils.InteractWithQuestion`; `fs` is the set of existing directories
(`os.path.exists` / `os.makedirs`); `expanduser` is `os.path.expanduser`;
`_REQUIRED_SPACE = 10`. Each iteration first expands the candidate, offers
to create a missing directory (any answer other than `"y"`, case-folded,
exits), then re-prompts while the available space is below 10 GiB (answer
`"q"`, case-folded, exits; any other answer is the next candidate). -/
def ConfirmDownloadRemoteImageDir (expanduser : String → String)
    (statvfs : String → Nat × Nat) :
    List String → String → List String → ConfirmResult
  | fs, downloadDir, inputs =>
    if expanduser downloadDir ∈ fs then
      if availSpaceGiB statvfs (expanduser downloadDir) < 10 then
        match inputs with
        | [] => .blocked
        | ans :: rest =>
            if pyLower ans = "q" then .exited
            else ConfirmDownloadRemoteImageDir expanduser statvfs fs ans rest
      else .returned (expanduser downloadDir)
    else
      match inputs with
      | [] => .blocked
      | ans :: rest =>
          if pyLower ans = "y" then
            if availSpaceGiB statvfs (expanduser downloadDir) < 10 then
              match rest with
              | [] => .blocked
              | ans2 :: rest2 =>
                  if pyLower ans2 = "q" then .exited
                  else ConfirmDownloadRemoteImageDir expanduser statvfs
                    (expanduser downloadDir :: fs) ans2 rest2
            else .returned (expanduser downloadDir)
          else .exited

/-- C1: the download-directory confirmation loop returns only paths whose
available space `f_bavail * f_bsize / 1024³` is at least 10 GiB; any
insufficient-space candidate leads to another prompt, an exit, or a blocked
prompt — never to a return. -/
theorem C1_confirm_download_dir_space (expanduser : String → String)
    (statvfs : String → Nat × Nat) (fs : List String) (dir : String)
    (inputs : List String) (p : String)
    (h : ConfirmDownloadRemoteImageDir expanduser statvfs fs dir inputs =
      .returned p) :
    10 ≤ availSpaceGiB statvfs p := by
  induction fs, dir, inputs using
      ConfirmDownloadRemoteImageDir.induct expanduser statvfs
  all_goals rw [ConfirmDownloadRemoteImageDir.eq_def] at h
  all_goals repeat' split at h
  all_goals try exact ConfirmResult.noConfusion h
  all_goals try injections
  all_goals try subst_vars
  all_goals try omega
  all_goals try contradiction
  all_goals solve_by_elim

/-- Witness for C1: with a filesystem whose only directory `"d"` reports
exactly 10 GiB available, the loop returns `"d"`, which indeed has at least
10 GiB free. -/
theorem C1_witness :
    10 ≤ availSpaceGiB (fun _ => (10737418240, 1)) "d" :=
  C1_confirm_download_dir_space (fun s => s) (fun _ => (10737418240, 1))
    ["d"] "d" [] "d" (by decide)

/-! ## create/remote_image_local_instance.py : the download-and-process
pipeline (`_DownloadAndProcessImageFiles`, `_DownloadRemoteImage`,
`_UnpackBootImage`, `_AclCfImageFiles`)

The filesystem is the list of existing paths (`os.path.exists` is
membership); calls to external collaborators are recorded as events.
The Artifact Repository download and `utils.Decompress` are black-box
collaborators (spec §6) modelled as always succeeding, with an oracle
giving the files decompression creates; no claim depends on their
failure.  The external unpack and `setfacl` tools have exit-status
oracles, since `subprocess.check_call` raises on non-zero exit. -/

/-- Calls made to external collaborators, in order. -/
inductive PipeEvent where
  | makeDirs (path : String)
  | downloadArtifact (buildTarget buildId artifact destPath : String)
  | decompress (srcPath destDir : String)
  | removeFile (path : String)
  | unpackBootImage (bootImgPath destDir : String)
  | setfacl (path : String)
  deriving DecidableEq, Repr

/-- The `errors.*` exception types the pipeline raises, plus
`subprocess.CalledProcessError` for a failing external command. -/
inductive PipeError where
  | bootImgDoesNotExist (msg : String)
  | unpackBootImageError (msg : String)
  | checkPathError (msg : String)
  | calledProcessError
  deriving DecidableEq, Repr

/-- `os.path.join` as the code uses it (plain directory, relative child). -/
def osPathJoin (a b : String) : String := a ++ "/" ++ b

/-- `_CVD_HOST_PACKAGE = "cvd-host_package.tar.gz"`. -/
def CVD_HOST_PACKAGE : String := "cvd-host_package.tar.gz"

/-- `_CF_IMAGES` (remote_image_local_instance.py lines 49-50). -/
def CF_IMAGES : List String :=
  ["cache.img", "cmdline", "kernel", "ramdisk.img", "system.img",
   "userdata.img", "vendor.img"]

/-- `_BOOT_IMAGE = "boot.img"`. -/
def BOOT_IMAGE : String := "boot.img"

/-- The extraction directory
`os.path.join(image_download_dir, "acloud_image_artifacts", build_id)`. -/
def extractionDirectory (downloadDir buildId : String) : String :=
  osPathJoin (osPathJoin downloadDir "acloud_image_artifacts") buildId

/-- `_DownloadRemoteImage(cfg, build_target, build_id, extract_path)`
(lines 130-158): for each of the host package and the image archive
`<target-prefix>-img-<buildId>.zip` (prefix = build target up to its first
`-`), download into a temp file in the extraction directory, decompress
there, then delete the temp file (`os.remove` failure is only logged, so
`removeOk` tells whether the deletion succeeded). Returns the new
filesystem and the events performed.

`remoteImageName` is `"%s-img-%s.zip" % (build_target.split('-')[0],
build_id)` (lines 140-141). -/
def remoteImageName (buildTarget buildId : String) : String :=
  (pySplit '-' buildTarget).headI ++ "-img-" ++ buildId ++ ".zip"

def DownloadRemoteImage (decompressFiles : String → List String)
    (removeOk : String → Bool) (fs : List String)
    (buildTarget buildId extractPath : String) :
    List String × List PipeEvent :=
  [CVD_HOST_PACKAGE, remoteImageName buildTarget buildId].foldl
    (fun (acc : List String × List PipeEvent) artifact =>
      let temp := osPathJoin extractPath artifact
      let afterDecompress := temp :: (decompressFiles artifact ++ acc.1)
      let afterRemove :=
        if removeOk temp then afterDecompress.erase temp else afterDecompress
      (afterRemove,
       acc.2 ++ [.downloadArtifact buildTarget buildId artifact temp,
                 .decompress temp extractPath, .removeFile temp]))
    (fs, [])

/-- `_UnpackBootImage(extract_path)` (lines 160-184): require `boot.img`
in the extraction directory, else raise `errors.BootImgDoesNotExist`;
invoke the external unpack tool (`unpackOk` is its exit status,
`unpackFiles` the files it writes into the destination); non-zero exit
raises `errors.UnpackBootImageError`. -/
def UnpackBootImage (unpackOk : String → Bool)
    (unpackFiles : String → List String) (fs : List String)
    (extractPath : String) :
    Except PipeError (List String × List PipeEvent) :=
  if osPathJoin extractPath BOOT_IMAGE ∈ fs then
    if unpackOk (osPathJoin extractPath BOOT_IMAGE) then
      .ok (unpackFiles extractPath ++ fs,
        [.unpackBootImage (osPathJoin extractPath BOOT_IMAGE) extractPath])
    else .error (.unpackBootImageError "Failed to unpack boot.img")
  else
    .error (.bootImgDoesNotExist
      (BOOT_IMAGE ++ " does not exist in " ++ osPathJoin extractPath BOOT_IMAGE))

/-- The `for image in _CF_IMAGES` loop of `_AclCfImageFiles` (lines
200-205): for each image name in order, raise `errors.CheckPathError` if
the file is absent, else run `setfacl` (`aclOk` is its exit status; a
non-zero exit raises `subprocess.CalledProcessError`). Returns the
`setfacl` invocations performed and the first error, if any. -/
def AclCfImageFilesLoop (aclOk : String → Bool) (fs : List String)
    (extractPath : String) :
    List String → List PipeEvent × Option PipeError
  | [] => ([], none)
  | image :: rest =>
      if osPathJoin extractPath image ∈ fs then
        if aclOk (osPathJoin extractPath image) then
          let r := AclCfImageFilesLoop aclOk fs extractPath rest
          (.setfacl (osPathJoin extractPath image) :: r.1, r.2)
        else ([], some .calledProcessError)
      else
        ([], some (.checkPathError
          ("Specified file doesn't exist: " ++ osPathJoin extractPath image)))

/-- `_AclCfImageFiles(extract_path)` (lines 186-206). -/
def AclCfImageFiles (aclOk : String → Bool) (fs : List String)
    (extractPath : String) : List PipeEvent × Option PipeError :=
  AclCfImageFilesLoop aclOk fs extractPath CF_IMAGES

/-- `_DownloadAndProcessImageFiles(avd_spec)` (lines 97-128): compute the
extraction directory; if it exists, do nothing and return it; else create
it, download and decompress the artifacts, unpack the boot image, and ACL
the image files. Returns the new filesystem, the events performed, and
the returned path or the raised error. -/
def DownloadAndProcessImageFiles (decompressFiles : String → List String)
    (removeOk unpackOk : String → Bool) (unpackFiles : String → List String)
    (aclOk : String → Bool) (fs : List String)
    (imageDownloadDir buildId buildTarget : String) :
    List String × List PipeEvent × Except PipeError String :=
  if extractionDirectory imageDownloadDir buildId ∈ fs then
    (fs, [], .ok (extractionDirectory imageDownloadDir buildId))
  else
    let extractPath := extractionDirectory imageDownloadDir buildId
    let fs1 := extractPath :: fs
    let dl := DownloadRemoteImage decompressFiles removeOk fs1 buildTarget
      buildId extractPath
    match UnpackBootImage unpackOk unpackFiles dl.1 extractPath with
    | .error e => (dl.1, .makeDirs extractPath :: dl.2, .error e)
    | .ok unp =>
        let acl := AclCfImageFiles aclOk unp.1 extractPath
        match acl.2 with
        | some e =>
            (unp.1, .makeDirs extractPath :: (dl.2 ++ unp.2 ++ acl.1), .error e)
        | none =>
            (unp.1, .makeDirs extractPath :: (dl.2 ++ unp.2 ++ acl.1),
             .ok extractPath)

theorem aclLoop_first_missing (aclOk : String → Bool) (fs : List String)
    (extractPath : String) (hok : ∀ p, aclOk p = true) :
    ∀ (pre : List String) (img : String) (post : List String),
      (∀ i ∈ pre, osPathJoin extractPath i ∈ fs) →
      osPathJoin extractPath img ∉ fs →
      AclCfImageFilesLoop aclOk fs extractPath (pre ++ img :: post) =
        (pre.map (fun i => .setfacl (osPathJoin extractPath i)),
         some (.checkPathError
           ("Specified file doesn't exist: " ++ osPathJoin extractPath img))) := by
  intro pre
  induction pre with
  | nil =>
      intro img post _ hmiss
      simp [AclCfImageFilesLoop, hmiss]
  | cons hd tl ih =>
      intro img post hpre hmiss
      have hhd : osPathJoin extractPath hd ∈ fs := hpre hd (by simp)
      have ih' := ih img post (fun i hi => hpre i (by simp [hi])) hmiss
      simp [AclCfImageFilesLoop, hhd, hok, ih']

/-- C7: `_AclCfImageFiles` iterates over exactly
`{cache.img, cmdline, kernel, ramdisk.img, system.img, userdata.img,
vendor.img}` in that fixed order, and (when the ACL command itself always
succeeds) a missing file raises `CheckPathError` naming the first missing
file, with `setfacl` run exactly on the present prefix before it — no
file at or after the first missing one is processed. -/
theorem C7_acl_first_missing_aborts :
    CF_IMAGES = ["cache.img", "cmdline", "kernel", "ramdisk.img",
      "system.img", "userdata.img", "vendor.img"] ∧
    ∀ (aclOk : String → Bool) (fs : List String) (extractPath : String)
      (pre : List String) (img : String) (post : List String),
      (∀ p, aclOk p = true) →
      CF_IMAGES = pre ++ img :: post →
      (∀ i ∈ pre, osPathJoin extractPath i ∈ fs) →
      osPathJoin extractPath img ∉ fs →
      AclCfImageFiles aclOk fs extractPath =
        (pre.map (fun i => .setfacl (osPathJoin extractPath i)),
         some (.checkPathError
           ("Specified file doesn't exist: " ++ osPathJoin extractPath img))) := by
  refine ⟨rfl, ?_⟩
  intro aclOk fs extractPath pre img post hok hdec hpre hmiss
  rw [AclCfImageFiles, hdec]
  exact aclLoop_first_missing aclOk fs extractPath hok pre img post hpre hmiss

/-- Any existing path survives `_DownloadRemoteImage`: the temp-file
deletion removes only the temp file just added at the head. -/
theorem mem_downloadRemoteImage_of_mem (decompressFiles : String → List String)
    (removeOk : String → Bool) (fs : List String)
    (buildTarget buildId extractPath : String) (x : String) (hx : x ∈ fs) :
    x ∈ (DownloadRemoteImage decompressFiles removeOk fs buildTarget buildId
      extractPath).1 := by
  have step : ∀ (fs0 : List String) (a : String), x ∈ fs0 →
      x ∈ (if removeOk (osPathJoin extractPath a) then
            (osPathJoin extractPath a ::
              (decompressFiles a ++ fs0)).erase (osPathJoin extractPath a)
          else osPathJoin extractPath a :: (decompressFiles a ++ fs0)) := by
    intro fs0 a hx0
    by_cases hr : removeOk (osPathJoin extractPath a)
    · rw [if_pos hr, List.erase_cons_head]
      exact List.mem_append_right _ hx0
    · rw [if_neg hr]
      exact List.mem_cons_of_mem _ (List.mem_append_right _ hx0)
  simpa [DownloadRemoteImage] using step _ _ (step _ _ hx)

/-- The events of `_DownloadRemoteImage`: download, decompress, delete for
the host package, then the same for the image archive. -/
theorem downloadRemoteImage_events (decompressFiles : String → List String)
    (removeOk : String → Bool) (fs : List String)
    (buildTarget buildId extractPath : String) :
    (DownloadRemoteImage decompressFiles removeOk fs buildTarget buildId
      extractPath).2 =
      [.downloadArtifact buildTarget buildId CVD_HOST_PACKAGE
         (osPathJoin extractPath CVD_HOST_PACKAGE),
       .decompress (osPathJoin extractPath CVD_HOST_PACKAGE) extractPath,
       .removeFile (osPathJoin extractPath CVD_HOST_PACKAGE),
       .downloadArtifact buildTarget buildId (remoteImageName buildTarget buildId)
         (osPathJoin extractPath (remoteImageName buildTarget buildId)),
       .decompress (osPathJoin extractPath (remoteImageName buildTarget buildId))
         extractPath,
       .removeFile (osPathJoin extractPath (remoteImageName buildTarget buildId))] := by
  simp [DownloadRemoteImage]

/-- Inversion for a successful `_UnpackBootImage`: the resulting filesystem
is the unpack tool's output files on top of the old one. -/
theorem unpackBootImage_ok_inv (unpackOk : String → Bool)
    (unpackFiles : String → List String) (fs : List String)
    (extractPath : String) (res : List String × List PipeEvent)
    (h : UnpackBootImage unpackOk unpackFiles fs extractPath = .ok res) :
    res.1 = unpackFiles extractPath ++ fs := by
  rw [UnpackBootImage] at h
  split at h
  · split at h
    · obtain rfl := Except.ok.inj h
      rfl
    · exact absurd h (by simp)
  · exact absurd h (by simp)

/-- C3: if the extraction directory `<downloadDir>/acloud_image_artifacts/
<buildId>` already exists, the pipeline performs no events (no download, no
unpack, no ACL) and returns that path; consequently a second run after a
successful first run (which did download) finds the directory created by
`os.makedirs` still present and returns the same path without touching the
repository client. -/
theorem C3_pipeline_skip_idempotent :
    (∀ (decompressFiles : String → List String) (removeOk unpackOk : String → Bool)
       (unpackFiles : String → List String) (aclOk : String → Bool)
       (fs : List String) (dir buildId buildTarget : String),
      extractionDirectory dir buildId ∈ fs →
      DownloadAndProcessImageFiles decompressFiles removeOk unpackOk unpackFiles
          aclOk fs dir buildId buildTarget =
        (fs, [], .ok (extractionDirectory dir buildId))) ∧
    (∀ (decompressFiles : String → List String) (removeOk unpackOk : String → Bool)
       (unpackFiles : String → List String) (aclOk : String → Bool)
       (fs : List String) (dir buildId buildTarget : String)
       (fs1 : List String) (evs1 : List PipeEvent) (p : String),
      extractionDirectory dir buildId ∉ fs →
      DownloadAndProcessImageFiles decompressFiles removeOk unpackOk unpackFiles
          aclOk fs dir buildId buildTarget = (fs1, evs1, .ok p) →
      p = extractionDirectory dir buildId ∧
      PipeEvent.downloadArtifact buildTarget buildId CVD_HOST_PACKAGE
        (osPathJoin (extractionDirectory dir buildId) CVD_HOST_PACKAGE) ∈ evs1 ∧
      DownloadAndProcessImageFiles decompressFiles removeOk unpackOk unpackFiles
          aclOk fs1 dir buildId buildTarget =
        (fs1, [], .ok (extractionDirectory dir buildId))) := by
  constructor
  · intro dF rOk uOk uF aOk fs dir bI bT hmem
    rw [DownloadAndProcessImageFiles, if_pos hmem]
  · intro dF rOk uOk uF aOk fs dir bI bT fs1 evs1 p hnot h2
    simp only [DownloadAndProcessImageFiles, if_neg hnot] at h2
    rcases hu : UnpackBootImage uOk uF
        (DownloadRemoteImage dF rOk (extractionDirectory dir bI :: fs) bT bI
          (extractionDirectory dir bI)).1
        (extractionDirectory dir bI) with e | unp
    · simp only [hu] at h2
      simp at h2
    · simp only [hu] at h2
      have hunp := unpackBootImage_ok_inv uOk uF _ _ _ hu
      have hx : extractionDirectory dir bI ∈ unp.1 := by
        rw [hunp]
        exact List.mem_append_right _
          (mem_downloadRemoteImage_of_mem dF rOk _ bT bI _ _ (by simp))
      rcases hacl : (AclCfImageFiles aOk unp.1 (extractionDirectory dir bI)).2
          with _ | e
      · simp only [hacl] at h2
        injection h2 with h31 hrest
        injection hrest with h32 h33
        subst h31
        subst h32
        refine ⟨(Except.ok.inj h33).symm, ?_, ?_⟩
        · exact List.mem_cons_of_mem _ (List.mem_append_left _
            (List.mem_append_left _ (by
              rw [downloadRemoteImage_events]
              simp)))
        · rw [DownloadAndProcessImageFiles, if_pos hx]
      · simp only [hacl] at h2
        simp at h2

/-- Decompression oracle for the concrete C3 run on build (d, 1, t):
each archive decompresses to the boot image and all CF images. -/
def c3DecompressFiles : String → List String :=
  fun _ => ["d/acloud_image_artifacts/1/" ++ BOOT_IMAGE] ++
    CF_IMAGES.map (fun i => "d/acloud_image_artifacts/1/" ++ i)

/-- The filesystem after the concrete fresh C3 run. -/
def c3FirstRunFs : List String :=
  ["d/acloud_image_artifacts/1/boot.img", "d/acloud_image_artifacts/1/cache.img",
   "d/acloud_image_artifacts/1/cmdline", "d/acloud_image_artifacts/1/kernel",
   "d/acloud_image_artifacts/1/ramdisk.img", "d/acloud_image_artifacts/1/system.img",
   "d/acloud_image_artifacts/1/userdata.img", "d/acloud_image_artifacts/1/vendor.img",
   "d/acloud_image_artifacts/1/boot.img", "d/acloud_image_artifacts/1/cache.img",
   "d/acloud_image_artifacts/1/cmdline", "d/acloud_image_artifacts/1/kernel",
   "d/acloud_image_artifacts/1/ramdisk.img", "d/acloud_image_artifacts/1/system.img",
   "d/acloud_image_artifacts/1/userdata.img", "d/acloud_image_artifacts/1/vendor.img",
   "d/acloud_image_artifacts/1"]

/-- The events of the concrete fresh C3 run. -/
def c3FirstRunEvents : List PipeEvent :=
  [.makeDirs "d/acloud_image_artifacts/1",
   .downloadArtifact "t" "1" "cvd-host_package.tar.gz"
     "d/acloud_image_artifacts/1/cvd-host_package.tar.gz",
   .decompress "d/acloud_image_artifacts/1/cvd-host_package.tar.gz"
     "d/acloud_image_artifacts/1",
   .removeFile "d/acloud_image_artifacts/1/cvd-host_package.tar.gz",
   .downloadArtifact "t" "1" "t-img-1.zip" "d/acloud_image_artifacts/1/t-img-1.zip",
   .decompress "d/acloud_image_artifacts/1/t-img-1.zip" "d/acloud_image_artifacts/1",
   .removeFile "d/acloud_image_artifacts/1/t-img-1.zip",
   .unpackBootImage "d/acloud_image_artifacts/1/boot.img" "d/acloud_image_artifacts/1",
   .setfacl "d/acloud_image_artifacts/1/cache.img",
   .setfacl "d/acloud_image_artifacts/1/cmdline",
   .setfacl "d/acloud_image_artifacts/1/kernel",
   .setfacl "d/acloud_image_artifacts/1/ramdisk.img",
   .setfacl "d/acloud_image_artifacts/1/system.img",
   .setfacl "d/acloud_image_artifacts/1/userdata.img",
   .setfacl "d/acloud_image_artifacts/1/vendor.img"]

/-- Witness for C3: a fresh run over the empty filesystem (oracles making
every step succeed) downloads and returns the extraction directory, and
the follow-up run over the resulting filesystem performs no events and
returns the same path. -/
theorem C3_witness :
    DownloadAndProcessImageFiles c3DecompressFiles (fun _ => true)
        (fun _ => true) (fun _ => []) (fun _ => true) c3FirstRunFs "d" "1" "t" =
      (c3FirstRunFs, [], .ok "d/acloud_image_artifacts/1") :=
  (C3_pipeline_skip_idempotent.2 c3DecompressFiles (fun _ => true)
    (fun _ => true) (fun _ => []) (fun _ => true) [] "d" "1" "t" c3FirstRunFs
    c3FirstRunEvents "d/acloud_image_artifacts/1" (by decide) (by decide)).2.2

/-- Witness for C7: with only `cache.img` present under `"e"`, the loop
ACLs `cache.img` and then fails naming `e/cmdline`. -/
theorem C7_witness :
    AclCfImageFiles (fun _ => true) ["e/cache.img"] "e" =
      ([.setfacl "e/cache.img"],
       some (.checkPathError "Specified file doesn't exist: e/cmdline")) :=
  C7_acl_first_missing_aborts.2 (fun _ => true) ["e/cache.img"] "e"
    ["cache.img"] "cmdline"
    ["kernel", "ramdisk.img", "system.img", "userdata.img", "vendor.img"]
    (fun _ => rfl) (by decide) (by decide) (by decide)

/-! ## internal/lib/ssh.py : GetBaseCmd

`ssh.py` itself is not under src/; only its tests (`ssh_test.py`) are.
The command construction is therefore modelled from the spec (§4.6) and
checked byte-for-byte against the expected strings of
`testGetBaseCmd` / `testGetBaseCmdWithInternalIP`. -/

/-- `gcompute_client.IP`: the external/internal address pair of a remote
host, as constructed in ssh_test.py. -/
structure IP where
  external : String
  internal : String
  deriving DecidableEq, Repr

/-- Modelled from the spec: `constants.SSH_BIN` — the ssh binary name;
`utils.FindExecutable` resolves it to `/usr/bin/ssh` in the tests. -/
def SSH_BIN : String := "ssh"

/-- Modelled from the spec: `constants.SCP_BIN`. -/
def SCP_BIN : String := "scp"

/-- Modelled from the spec: the executable resolution used by
`GetBaseCmd`; the tests fix `/usr/bin/ssh` and `/usr/bin/scp`. -/
def FindExecutable (executeBin : String) : String := "/usr/bin/" ++ executeBin

/-- Modelled from the spec: the `Ssh` object of `internal/lib/ssh.py`
(spec §3 RemoteHost / §4.6), as constructed in ssh_test.py:
`Ssh(ip, gce_user, ssh_private_key_path, extra_args_ssh_tunnel=None,
report_internal_ip=False)`. -/
structure Ssh where
  ip : IP
  gce_user : String
  ssh_private_key_path : String
  extra_args_ssh_tunnel : Option String := none
  report_internal_ip : Bool := false
  deriving DecidableEq, Repr

/-- The address `GetBaseCmd` targets: internal when `report_internal_ip`
is set, else external (spec §4.6). -/
def Ssh.targetIp (s : Ssh) : String :=
  if s.report_internal_ip then s.ip.internal else s.ip.external

/-- Modelled from the spec: `Ssh.GetBaseCmd(execute_bin)` (§4.6) —
assembles, in fixed order, the binary path, the identity-file flag, the
quiet flag, `UserKnownHostsFile=/dev/null`, `StrictHostKeyChecking=no`,
any configured extra arguments, then — for the ssh binary only —
`-l <user> <address>`; the pieces are joined with single spaces. -/
def Ssh.GetBaseCmd (s : Ssh) (executeBin : String) : String :=
  String.intercalate " "
    ([FindExecutable executeBin,
      "-i " ++ s.ssh_private_key_path,
      "-q -o UserKnownHostsFile=/dev/null -o StrictHostKeyChecking=no"] ++
     (match s.extra_args_ssh_tunnel with
      | some extra => [extra]
      | none => []) ++
     (if executeBin = SSH_BIN then
        ["-l " ++ s.gce_user ++ " " ++ s.targetIp]
      else []))

/-- The modelled `GetBaseCmd` reproduces the expected command of
`testGetBaseCmd` for the ssh binary, byte for byte. -/
theorem getBaseCmd_matches_test_ssh :
    Ssh.GetBaseCmd
      { ip := { external := "1.1.1.1", internal := "10.1.1.1" },
        gce_user := "fake_user",
        ssh_private_key_path := "/fake/acloud_rea" } SSH_BIN =
      "/usr/bin/ssh -i /fake/acloud_rea -q -o UserKnownHostsFile=/dev/null" ++
        " -o StrictHostKeyChecking=no -l fake_user 1.1.1.1" := by decide

/-- The modelled `GetBaseCmd` reproduces the expected command of
`testGetBaseCmdWithInternalIP`. -/
theorem getBaseCmd_matches_test_internal :
    Ssh.GetBaseCmd
      { ip := { external := "1.1.1.1", internal := "10.1.1.1" },
        gce_user := "fake_user",
        ssh_private_key_path := "/fake/acloud_rea",
        report_internal_ip := true } SSH_BIN =
      "/usr/bin/ssh -i /fake/acloud_rea -q -o UserKnownHostsFile=/dev/null" ++
        " -o StrictHostKeyChecking=no -l fake_user 10.1.1.1" := by decide

/-- The modelled `GetBaseCmd` reproduces the expected scp command of
`testGetBaseCmd`. -/
theorem getBaseCmd_matches_test_scp :
    Ssh.GetBaseCmd
      { ip := { external := "1.1.1.1", internal := "10.1.1.1" },
        gce_user := "fake_user",
        ssh_private_key_path := "/fake/acloud_rea" } SCP_BIN =
      "/usr/bin/scp -i /fake/acloud_rea -q -o UserKnownHostsFile=/dev/null" ++
        " -o StrictHostKeyChecking=no" := by decide

/-- C4: for every remote host descriptor, `GetBaseCmd` for the ssh binary
is exactly `<ssh-bin> -i <key> -q -o UserKnownHostsFile=/dev/null -o
StrictHostKeyChecking=no [<extra-args>] -l <user> <address>`, with the
internal address iff `report_internal_ip`; the scp variant drops the
`-l <user> <address>` suffix. -/
theorem C4_get_base_cmd (s : Ssh) :
    (s.GetBaseCmd SSH_BIN =
      "/usr/bin/ssh" ++ " -i " ++ s.ssh_private_key_path ++
      " -q -o UserKnownHostsFile=/dev/null -o StrictHostKeyChecking=no" ++
      (match s.extra_args_ssh_tunnel with
       | some extra => " " ++ extra
       | none => "") ++
      " -l " ++ s.gce_user ++ " " ++
      (if s.report_internal_ip then s.ip.internal else s.ip.external)) ∧
    (s.GetBaseCmd SCP_BIN =
      "/usr/bin/scp" ++ " -i " ++ s.ssh_private_key_path ++
      " -q -o UserKnownHostsFile=/dev/null -o StrictHostKeyChecking=no" ++
      (match s.extra_args_ssh_tunnel with
       | some extra => " " ++ extra
       | none => "")) := by
  obtain ⟨ip, user, key, extra, rep⟩ := s
  cases extra <;>
    exact ⟨String.ext (by
        simp [Ssh.GetBaseCmd, Ssh.targetIp, FindExecutable, SSH_BIN, SCP_BIN,
          String.intercalate, String.intercalate.go, String.data_append]),
      String.ext (by
        simp [Ssh.GetBaseCmd, Ssh.targetIp, FindExecutable, SSH_BIN, SCP_BIN,
          String.intercalate, String.intercalate.go, String.data_append])⟩

/-! ## internal/lib/cvd_compute_client.py : CreateInstance

The class state (`self._metadata`, `self._resolution`, …) set up by the
`AndroidComputeClient` base (not under src/) is a plain record; the
inherited collaborators (`_CheckMachineSize`, `GetImage`,
`_LoadSshPublicKey`, `getpass.getuser`, and the parent
`ComputeClient.CreateInstance` submission) are parameters: the backend's
`GetImage` result carries `selfLink` and `diskSizeGb` (already through
Python's `int(...)`), and the submitted request is the `.ok` value. -/

/-- Python errors `CreateInstance` can surface: `TypeError` from
`int + None`, `IndexError` from indexing a short resolution split, and
the fatal error of the delegated `_CheckMachineSize`. -/
inductive PyError where
  | typeError
  | indexError
  | driverError
  deriving DecidableEq, Repr

/-- The fields of a `GetImage` response that `CreateInstance` reads. -/
structure GceImage where
  selfLink : String
  diskSizeGb : Int
  deriving DecidableEq, Repr

/-- One entry of the disk-args structure built by `_GetDiskArgs`
(cvd_compute_client.py lines 66-88). -/
structure DiskArgs where
  type : String
  boot : Bool
  mode : String
  autoDelete : Bool
  diskName : String
  sourceImage : String
  diskSizeGb : Int
  deriving DecidableEq, Repr

/-- `_GetDiskArgs(disk_name, image_name, image_project, disk_size_gb)`:
a single persistent, boot, auto-delete entry sourced from the image's
selfLink with the given size. -/
def GetDiskArgs (getImage : String → String → GceImage)
    (disk_name image_name image_project : String) (disk_size_gb : Int) :
    List DiskArgs :=
  [{ type := "PERSISTENT", boot := true, mode := "READ_WRITE",
     autoDelete := true, diskName := disk_name,
     sourceImage := (getImage image_name image_project).selfLink,
     diskSizeGb := disk_size_gb }]

/-- `DATA_POLICY_CREATE_IF_MISSING = "create_if_missing"`. -/
def DATA_POLICY_CREATE_IF_MISSING : String := "create_if_missing"

/-- The request the parent `ComputeClient.CreateInstance` is called with
(cvd_compute_client.py lines 155-164). -/
structure CreateInstanceRequest where
  instanceName : String
  image_name : String
  image_project : String
  disk_args : List DiskArgs
  metadata : List (String × String)
  machine_type : String
  network : String
  zone : String
  deriving DecidableEq, Repr

/-- The `CvdComputeClient` state read by `CreateInstance`: `self._metadata`,
`self._resolution`, `self._machine_type`, `self._network`, `self._zone`,
`self._ssh_public_key_path`. -/
structure CvdComputeClient where
  metadata : List (String × String)
  resolution : String
  machine_type : String
  network : String
  zone : String
  ssh_public_key_path : Option String := none
  deriving DecidableEq, Repr

/-- Python truthiness of an optional string: `None` and `""` are falsy. -/
def pyTruthyStr (o : Option String) : Bool :=
  match o with
  | none => false
  | some s => !pyEmpty s

/-- The metadata assembly of `CreateInstance` (cvd_compute_client.py lines
124-153), in source order: copy the base metadata, then assign
`cvd_01_dpi = resolution[3]`, the Android build-fetch entries, the kernel
fetch entry when both kernel branch and build id are truthy, the launch
flag, `cvd_01_x_res = resolution[0]`, `cvd_01_y_res = resolution[1]`, the
blank-data-disk entries when the size is positive, and the per-instance
ssh key when a public-key path is configured. -/
def cvdMetadata (client : CvdComputeClient) (getpassUser : String)
    (loadSshPublicKey : String → String)
    (build_target branch build_id : String)
    (kernel_branch kernel_build_id : Option String) (blank : Int) :
    List (String × String) :=
  let resolution := pySplit 'x' client.resolution
  let m1 := pyDictInsert client.metadata "cvd_01_dpi" (resolution.getD 3 "")
  let m2 := pyDictInsert m1 "cvd_01_fetch_android_build_target" build_target
  let m3 := pyDictInsert m2 "cvd_01_fetch_android_bid"
    (branch ++ "/" ++ build_id)
  let m4 :=
    if pyTruthyStr kernel_branch && pyTruthyStr kernel_build_id then
      pyDictInsert m3 "cvd_01_fetch_kernel_bid"
        (kernel_branch.getD "" ++ "/" ++ kernel_build_id.getD "")
    else m3
  let m5 := pyDictInsert m4 "cvd_01_launch" "1"
  let m6 := pyDictInsert m5 "cvd_01_x_res" (resolution.getD 0 "")
  let m7 := pyDictInsert m6 "cvd_01_y_res" (resolution.getD 1 "")
  let m8 :=
    if blank > 0 then
      pyDictInsert
        (pyDictInsert m7 "cvd_01_data_policy" DATA_POLICY_CREATE_IF_MISSING)
        "cvd_01_blank_data_disk_size" (toString (blank * 1024))
    else m7
  if pyTruthyStr client.ssh_public_key_path then
    pyDictInsert m8 "sshKeys"
      (getpassUser ++ ":" ++
        loadSshPublicKey (client.ssh_public_key_path.getD ""))
  else m8

/-- `CreateInstance(instance, image_name, image_project, build_target,
branch, build_id, kernel_branch=None, kernel_build_id=None,
blank_data_disk_size_gb=None)` (cvd_compute_client.py lines 90-164),
with the delegated machine-size check's outcome `checkMachineSizeOk`,
the backend `getImage`, the local user `getpassUser` and the key loader
`loadSshPublicKey` as parameters.

`boot_disk_size_gb = int(GetImage(...)["diskSizeGb"]) +
blank_data_disk_size_gb` raises `TypeError` when the blank size was
omitted (`None`); `resolution[3]` raises `IndexError` when the split has
fewer than four fields (before any metadata assignment). -/
def CreateInstance (client : CvdComputeClient)
    (getImage : String → String → GceImage) (checkMachineSizeOk : Bool)
    (getpassUser : String) (loadSshPublicKey : String → String)
    (instanceName image_name image_project build_target branch build_id : String)
    (kernel_branch : Option String := none)
    (kernel_build_id : Option String := none)
    (blank_data_disk_size_gb : Option Int := none) :
    Except PyError CreateInstanceRequest :=
  if !checkMachineSizeOk then .error .driverError
  else
    match blank_data_disk_size_gb with
    | none => .error .typeError
    | some blank =>
        if (pySplit 'x' client.resolution).length < 4 then .error .indexError
        else
          .ok
            { instanceName := instanceName
              image_name := image_name
              image_project := image_project
              disk_args := GetDiskArgs getImage instanceName image_name
                image_project
                ((getImage image_name image_project).diskSizeGb + blank)
              metadata := cvdMetadata client getpassUser loadSshPublicKey
                build_target branch build_id kernel_branch kernel_build_id
                blank
              machine_type := client.machine_type
              network := client.network
              zone := client.zone }

/-- Python dict lookup `d[k]` on the ordered association list. -/
def pyDictGet (d : List (String × String)) (k : String) : Option String :=
  match d with
  | [] => none
  | (k', v) :: rest => if k' = k then some v else pyDictGet rest k

theorem pyDictGet_insert_self (d : List (String × String)) (k v : String) :
    pyDictGet (pyDictInsert d k v) k = some v := by
  induction d with
  | nil => simp [pyDictInsert, pyDictGet]
  | cons hd tl ih =>
      obtain ⟨k', v'⟩ := hd
      by_cases h : k' = k
      · subst h; simp [pyDictInsert, pyDictGet]
      · simp [pyDictInsert, pyDictGet, h, ih]

theorem pyDictGet_insert_ne (d : List (String × String)) (k v k2 : String)
    (h : k ≠ k2) :
    pyDictGet (pyDictInsert d k v) k2 = pyDictGet d k2 := by
  induction d with
  | nil => simp [pyDictInsert, pyDictGet, h]
  | cons hd tl ih =>
      obtain ⟨k', v'⟩ := hd
      by_cases h2 : k' = k
      · subst h2
        by_cases h3 : k' = k2
        · exact absurd h3 h
        · simp [pyDictInsert, pyDictGet, h, h3]
      · by_cases h3 : k' = k2
        · subst h3
          simp [pyDictInsert, pyDictGet, h2]
        · simp [pyDictInsert, pyDictGet, h2, h3, ih]

theorem cvdMetadata_get_x_res (client : CvdComputeClient) (u : String)
    (l : String → String) (bt br bid : String) (kb kbid : Option String)
    (blank : Int) :
    pyDictGet (cvdMetadata client u l bt br bid kb kbid blank)
      "cvd_01_x_res" = some ((pySplit 'x' client.resolution).getD 0 "") := by
  simp only [cvdMetadata]
  split <;> split <;> split <;>
    · repeat rw [pyDictGet_insert_ne _ _ _ _ (by decide)]
      rw [pyDictGet_insert_self]

theorem cvdMetadata_get_y_res (client : CvdComputeClient) (u : String)
    (l : String → String) (bt br bid : String) (kb kbid : Option String)
    (blank : Int) :
    pyDictGet (cvdMetadata client u l bt br bid kb kbid blank)
      "cvd_01_y_res" = some ((pySplit 'x' client.resolution).getD 1 "") := by
  simp only [cvdMetadata]
  split <;> split <;> split <;>
    · repeat rw [pyDictGet_insert_ne _ _ _ _ (by decide)]
      rw [pyDictGet_insert_self]

theorem cvdMetadata_get_dpi (client : CvdComputeClient) (u : String)
    (l : String → String) (bt br bid : String) (kb kbid : Option String)
    (blank : Int) :
    pyDictGet (cvdMetadata client u l bt br bid kb kbid blank)
      "cvd_01_dpi" = some ((pySplit 'x' client.resolution).getD 3 "") := by
  simp only [cvdMetadata]
  split <;> split <;> split <;>
    · repeat rw [pyDictGet_insert_ne _ _ _ _ (by decide)]
      rw [pyDictGet_insert_self]

/-- C5: every successful `CreateInstance` call passes a single-entry disk
args whose boot disk size is the backend-reported base image size plus the
supplied blank data disk size. -/
theorem C5_boot_disk_size (client : CvdComputeClient)
    (getImage : String → String → GceImage) (getpassUser : String)
    (loadSshPublicKey : String → String)
    (instanceName image_name image_project build_target branch build_id :
      String)
    (kernel_branch kernel_build_id : Option String) (n : Int)
    (req : CreateInstanceRequest)
    (h : CreateInstance client getImage true getpassUser loadSshPublicKey
      instanceName image_name image_project build_target branch build_id
      kernel_branch kernel_build_id (some n) = .ok req) :
    req.disk_args =
      [{ type := "PERSISTENT", boot := true, mode := "READ_WRITE",
         autoDelete := true, diskName := instanceName,
         sourceImage := (getImage image_name image_project).selfLink,
         diskSizeGb := (getImage image_name image_project).diskSizeGb + n }] := by
  simp only [CreateInstance, Bool.not_true, Bool.false_eq_true, if_false] at h
  split at h
  · exact absurd h (by simp)
  · obtain rfl := Except.ok.inj h
    simp [GetDiskArgs]

/-- C6: a successful `CreateInstance` sets `cvd_01_x_res` to field 0,
`cvd_01_y_res` to field 1 and `cvd_01_dpi` to field 3 of the
`"x"`-split resolution; and the call never reads field 2 — replacing the
resolution by any string whose split (of length ≥ 4) agrees at fields 0,
1 and 3 leaves the whole result unchanged. -/
theorem C6_resolution_fields :
    (∀ (client : CvdComputeClient) (getImage : String → String → GceImage)
       (u : String) (l : String → String)
       (iN imN imP bt br bid : String) (kb kbid : Option String) (n : Int)
       (req : CreateInstanceRequest),
      CreateInstance client getImage true u l iN imN imP bt br bid kb kbid
        (some n) = .ok req →
      pyDictGet req.metadata "cvd_01_x_res" =
        some ((pySplit 'x' client.resolution).getD 0 "") ∧
      pyDictGet req.metadata "cvd_01_y_res" =
        some ((pySplit 'x' client.resolution).getD 1 "") ∧
      pyDictGet req.metadata "cvd_01_dpi" =
        some ((pySplit 'x' client.resolution).getD 3 "")) ∧
    (∀ (client : CvdComputeClient) (r2 : String)
       (getImage : String → String → GceImage) (check : Bool) (u : String)
       (l : String → String) (iN imN imP bt br bid : String)
       (kb kbid : Option String) (blank : Option Int),
      4 ≤ (pySplit 'x' client.resolution).length →
      4 ≤ (pySplit 'x' r2).length →
      (pySplit 'x' client.resolution).getD 0 "" = (pySplit 'x' r2).getD 0 "" →
      (pySplit 'x' client.resolution).getD 1 "" = (pySplit 'x' r2).getD 1 "" →
      (pySplit 'x' client.resolution).getD 3 "" = (pySplit 'x' r2).getD 3 "" →
      CreateInstance client getImage check u l iN imN imP bt br bid kb kbid
          blank =
        CreateInstance { client with resolution := r2 } getImage check u l iN
          imN imP bt br bid kb kbid blank) := by
  constructor
  · intro client getImage u l iN imN imP bt br bid kb kbid n req h
    simp only [CreateInstance, Bool.not_true, Bool.false_eq_true, if_false] at h
    split at h
    · exact absurd h (by simp)
    · obtain rfl := Except.ok.inj h
      exact ⟨cvdMetadata_get_x_res .., cvdMetadata_get_y_res ..,
        cvdMetadata_get_dpi ..⟩
  · intro client r2 getImage check u l iN imN imP bt br bid kb kbid blank
      hl1 hl2 h0 h1 h3
    cases check
    · simp [CreateInstance]
    · cases blank with
      | none => simp [CreateInstance]
      | some n =>
          simp only [CreateInstance, cvdMetadata, Bool.not_true,
            Bool.false_eq_true, if_false]
          have hc1 : ¬(pySplit 'x' client.resolution).length < 4 := by omega
          have hc2 : ¬(pySplit 'x' r2).length < 4 := by omega
          rw [if_neg hc1, if_neg hc2, h0, h1, h3]

/-- The disk-args entry the concrete C5 witness call produces. -/
def c5ExpectedDisk : DiskArgs :=
  { type := "PERSISTENT", boot := true, mode := "READ_WRITE",
    autoDelete := true, diskName := "i", sourceImage := "link",
    diskSizeGb := 14 }

/-- The request the concrete C5 witness call produces. -/
def c5ExpectedRequest : CreateInstanceRequest :=
  { instanceName := "i", image_name := "img", image_project := "proj",
    disk_args := [c5ExpectedDisk],
    metadata := [("cvd_01_dpi", "240"),
      ("cvd_01_fetch_android_build_target", "t"),
      ("cvd_01_fetch_android_bid", "b/1"), ("cvd_01_launch", "1"),
      ("cvd_01_x_res", "720"), ("cvd_01_y_res", "1280"),
      ("cvd_01_data_policy", "create_if_missing"),
      ("cvd_01_blank_data_disk_size", "4096")],
    machine_type := "n1", network := "default", zone := "z" }

/-- Witness for C5: a concrete successful call with base image size 10 and
blank size 4 yields a single boot disk of 14 GiB. -/
theorem C5_witness : c5ExpectedRequest.disk_args = [c5ExpectedDisk] :=
  C5_boot_disk_size
    { metadata := [], resolution := "720x1280x32x240", machine_type := "n1",
      network := "default", zone := "z" }
    (fun _ _ => { selfLink := "link", diskSizeGb := 10 }) "u" (fun _ => "")
    "i" "img" "proj" "t" "b" "1" none none 4 c5ExpectedRequest (by decide)

/-- Witness for C6: the concrete successful call above reports
x-resolution 720, y-resolution 1280 and dpi 240, and changing field 2 of
the resolution from 32 to 99 leaves the result unchanged. -/
theorem C6_witness :
    (pyDictGet c5ExpectedRequest.metadata "cvd_01_x_res" =
        some ((pySplit 'x' "720x1280x32x240").getD 0 "") ∧
      pyDictGet c5ExpectedRequest.metadata "cvd_01_y_res" =
        some ((pySplit 'x' "720x1280x32x240").getD 1 "") ∧
      pyDictGet c5ExpectedRequest.metadata "cvd_01_dpi" =
        some ((pySplit 'x' "720x1280x32x240").getD 3 "")) ∧
    CreateInstance
        { metadata := [], resolution := "720x1280x32x240",
          machine_type := "n1", network := "default", zone := "z" }
        (fun _ _ => { selfLink := "link", diskSizeGb := 10 }) true "u"
        (fun _ => "") "i" "img" "proj" "t" "b" "1" none none (some 4) =
      CreateInstance
        { metadata := [], resolution := "720x1280x99x240",
          machine_type := "n1", network := "default", zone := "z" }
        (fun _ _ => { selfLink := "link", diskSizeGb := 10 }) true "u"
        (fun _ => "") "i" "img" "proj" "t" "b" "1" none none (some 4) :=
  ⟨C6_resolution_fields.1
      { metadata := [], resolution := "720x1280x32x240", machine_type := "n1",
        network := "default", zone := "z" }
      (fun _ _ => { selfLink := "link", diskSizeGb := 10 }) "u" (fun _ => "")
      "i" "img" "proj" "t" "b" "1" none none 4 c5ExpectedRequest (by decide),
   C6_resolution_fields.2
      { metadata := [], resolution := "720x1280x32x240", machine_type := "n1",
        network := "default", zone := "z" } "720x1280x99x240"
      (fun _ _ => { selfLink := "link", diskSizeGb := 10 }) true "u"
      (fun _ => "") "i" "img" "proj" "t" "b" "1" none none (some 4)
      (by decide) (by decide) (by decide) (by decide) (by decide)⟩

/-- C9: omitting `blank_data_disk_size_gb` (leaving its `None` default)
makes `CreateInstance` raise `TypeError` while computing
`int(diskSizeGb) + None`, before any request is submitted (the model's
request value exists only in the `.ok` branch); and every successful call
had an integer blank size. -/
theorem C9_blank_none_type_error :
    (∀ (client : CvdComputeClient) (getImage : String → String → GceImage)
       (getpassUser : String) (loadSshPublicKey : String → String)
       (iN imN imP bt br bid : String) (kb kbid : Option String),
      CreateInstance client getImage true getpassUser loadSshPublicKey iN imN
        imP bt br bid kb kbid none = .error .typeError) ∧
    (∀ (client : CvdComputeClient) (getImage : String → String → GceImage)
       (check : Bool) (getpassUser : String)
       (loadSshPublicKey : String → String) (iN imN imP bt br bid : String)
       (kb kbid : Option String) (blank : Option Int)
       (req : CreateInstanceRequest),
      CreateInstance client getImage check getpassUser loadSshPublicKey iN imN
        imP bt br bid kb kbid blank = .ok req →
      ∃ n : Int, blank = some n) := by
  constructor
  · intro client getImage getpassUser loadSshPublicKey iN imN imP bt br bid
      kb kbid
    simp [CreateInstance]
  · intro client getImage check getpassUser loadSshPublicKey iN imN imP bt br
      bid kb kbid blank req h
    cases check
    · simp [CreateInstance] at h
    · cases blank with
      | none => simp [CreateInstance] at h
      | some n => exact ⟨n, rfl⟩

/-- Witness for C9: the concrete omitted-size call raises `TypeError`, and
the concrete successful call of the C5 witness had blank size `some 4`. -/
theorem C9_witness :
    CreateInstance
        { metadata := [], resolution := "720x1280x32x240",
          machine_type := "n1", network := "default", zone := "z" }
        (fun _ _ => { selfLink := "link", diskSizeGb := 10 }) true "u"
        (fun _ => "") "i" "img" "proj" "t" "b" "1" none none none =
      .error .typeError ∧
    ∃ n : Int, (some 4 : Option Int) = some n :=
  ⟨C9_blank_none_type_error.1
      { metadata := [], resolution := "720x1280x32x240", machine_type := "n1",
        network := "default", zone := "z" }
      (fun _ _ => { selfLink := "link", diskSizeGb := 10 }) "u" (fun _ => "")
      "i" "img" "proj" "t" "b" "1" none none,
   C9_blank_none_type_error.2
      { metadata := [], resolution := "720x1280x32x240", machine_type := "n1",
        network := "default", zone := "z" }
      (fun _ _ => { selfLink := "link", diskSizeGb := 10 }) true "u"
      (fun _ => "") "i" "img" "proj" "t" "b" "1" none none (some 4)
      c5ExpectedRequest (by decide)⟩

/-! ## delete/delete.py : DeleteLocalGoldfishInstance

`delete.py` is not under src/; only its tests (`delete_test.py`) are.
The deletion routine and the Report are modelled from the spec (§3, §4.7)
and checked against the expectations of
`testDeleteLocalGoldfishInstanceSuccess` / `...Failure`. -/

/-- Modelled from the spec: the Report accumulator (§3) — ordered deleted
entries `{type, name}` and ordered error messages. -/
structure Report where
  deleted : List (String × String)
  errors : List String
  deriving DecidableEq, Repr

/-- Modelled from the spec: the Report's derived status (§3) — FAIL iff
`errors` is non-empty, else SUCCESS. -/
def Report.status (r : Report) : String :=
  if r.errors.isEmpty then "SUCCESS" else "FAIL"

/-- The goldfish instance-handle fields the deletion reads (spec §3
InstanceHandle, delete_test.py lines 65-69). -/
structure GoldfishInstance where
  name : String
  adb_port : Nat
  device_serial : String
  instance_dir : String
  deriving DecidableEq, Repr

/-- Modelled from the spec: `DeleteLocalGoldfishInstance(instance, report)`
(§4.7) — issue a "kill" command through the device's control channel
(`killRc` is its return code); code 0 appends a
`{type: "instance", name: <name>}` entry to `report.deleted`, non-zero
appends an error message; the instance's creation-timestamp marker is
removed regardless of outcome (the Bool records that this call was
made). -/
def DeleteLocalGoldfishInstance (killRc : Int) (inst : GoldfishInstance)
    (report : Report) : Report × Bool :=
  if killRc = 0 then
    ({ report with deleted := report.deleted ++ [("instance", inst.name)] },
     true)
  else
    ({ report with errors := report.errors ++
        ["Failed to kill emulator of instance " ++ inst.name] },
     true)

/-- The goldfish handle of the delete tests. -/
def gfTestInstance : GoldfishInstance :=
  { name := "unittest", adb_port := 5555, device_serial := "serial",
    instance_dir := "/unit/test" }

/-- C8 counterexample: for a report that already carries an error, a
kill return code of 0 still appends the deleted entry but the status is
FAIL, not SUCCESS — refuting the claim's quantification over every
report. -/
theorem C8_counterexample :
    (DeleteLocalGoldfishInstance 0 gfTestInstance
        { deleted := [], errors := ["earlier failure"] }).1.status = "FAIL" ∧
    (DeleteLocalGoldfishInstance 0 gfTestInstance
        { deleted := [], errors := ["earlier failure"] }).1.deleted =
      [("instance", "unittest")] ∧
    "FAIL" ≠ "SUCCESS" := by decide

/-- C8 (amended): for every goldfish handle and report, a kill return code
of 0 appends the `{type:"instance", name:<handle.name>}` entry, and the
status is SUCCESS provided the report had no prior errors; a non-zero
return code appends exactly one error and the status is FAIL; the
creation-timestamp removal is invoked in both cases. -/
theorem C8_delete_goldfish (inst : GoldfishInstance) (report : Report)
    (rc : Int) :
    (rc = 0 →
      (DeleteLocalGoldfishInstance rc inst report).1.deleted =
        report.deleted ++ [("instance", inst.name)] ∧
      (report.errors = [] →
        (DeleteLocalGoldfishInstance rc inst report).1.status = "SUCCESS")) ∧
    (rc ≠ 0 →
      (DeleteLocalGoldfishInstance rc inst report).1.errors.length =
        report.errors.length + 1 ∧
      (DeleteLocalGoldfishInstance rc inst report).1.status = "FAIL") ∧
    (DeleteLocalGoldfishInstance rc inst report).2 = true := by
  refine ⟨?_, ?_, ?_⟩
  · intro h0
    subst h0
    refine ⟨by simp [DeleteLocalGoldfishInstance], ?_⟩
    intro herr
    simp [DeleteLocalGoldfishInstance, Report.status, herr]
  · intro hne
    constructor
    · simp [DeleteLocalGoldfishInstance, if_neg hne]
    · simp [DeleteLocalGoldfishInstance, if_neg hne, Report.status]
  · by_cases h0 : rc = 0 <;> simp [DeleteLocalGoldfishInstance, h0]

/-- Witness for C8: the two test scenarios — kill succeeding (rc 0) on a
fresh report yields the deleted entry and SUCCESS, kill failing (rc 1)
yields one error and FAIL, and the timestamp removal runs in the success
case too. -/
theorem C8_witness :
    ((DeleteLocalGoldfishInstance 0 gfTestInstance
        { deleted := [], errors := [] }).1.deleted =
      [("instance", "unittest")] ∧
     (DeleteLocalGoldfishInstance 0 gfTestInstance
        { deleted := [], errors := [] }).1.status = "SUCCESS") ∧
    ((DeleteLocalGoldfishInstance 1 gfTestInstance
        { deleted := [], errors := [] }).1.errors.length = 1 ∧
     (DeleteLocalGoldfishInstance 1 gfTestInstance
        { deleted := [], errors := [] }).1.status = "FAIL") ∧
    (DeleteLocalGoldfishInstance 0 gfTestInstance
        { deleted := [], errors := [] }).2 = true :=
  ⟨⟨((C8_delete_goldfish gfTestInstance { deleted := [], errors := [] } 0).1
        rfl).1,
    ((C8_delete_goldfish gfTestInstance { deleted := [], errors := [] } 0).1
        rfl).2 rfl⟩,
   (C8_delete_goldfish gfTestInstance { deleted := [], errors := [] } 1).2.1
     (by decide),
   (C8_delete_goldfish gfTestInstance { deleted := [], errors := [] } 0).2.2⟩

end Acloud
